import Mathlib

/-!
Shallow embedding of `pycovenantsql/connections.py`: the `Connection`
class and the `CovenantSQLResult` class.

Python mutation is modelled by explicit state passing: every operation
returns the post-state together with an `Option DBErr` / `Except DBErr α`
describing the exception it raised, if any (state mutations performed
before the raise are kept, as in Python).  The HTTP transport
(`requests.Session.post`) is modelled as a function parameter
`Transport : Request → Except String Resp`; the list of `Request`s an
operation made is returned alongside the state, so "no transport
contact" is observable.  SQL byte strings are `List Nat` of byte values.
-/

/-- A byte string (Python `bytes`), as a list of byte values. -/
abbrev Bytes := List Nat

/-- A JSON column value, as far as the driver ever inspects one. -/
inductive JValue where
  | jnull : JValue
  | jbool (b : Bool) : JValue
  | jint (n : Int) : JValue
  | jstr (s : String) : JValue
  deriving Repr, DecidableEq

/-- The decoded JSON response envelope `{success, status?, data?}`.
`data := none` models JSON `"data": null` (or absent); `data := some rws`
models `"data": {"rows": rws}`. -/
structure Envelope where
  success : Bool
  status : String
  data : Option (List (List JValue))
  deriving Repr, DecidableEq

/-- A transport-level HTTP response: `ok` is `requests.Response.ok`,
`reason` its reason phrase, `body` the result of `.json()`
(`none` when the body is not decodable JSON). -/
structure Resp where
  ok : Bool
  reason : String
  body : Option Envelope
  deriving Repr, DecidableEq

/-- One HTTPS POST made by the driver: the target uri and the two form
fields `database` and `query` (`data = {"database": ..., "query": sql}`). -/
structure Request where
  uri : String
  database : Option String
  query : Bytes
  deriving Repr, DecidableEq

/-- The transport (`requests.Session.post`): either raises an exception
(message) or returns a response. -/
abbrev Transport := Request → Except String Resp

/-- The driver's exception taxonomy (`pycovenantsql.err` plus the Python
builtins the code raises). -/
inductive DBErr where
  | InterfaceError (msg : String) (detail : Option String) : DBErr
  | OperationalError (msg : String) (detail : String) : DBErr
  | Error (msg : String) : DBErr
  | ValueError (msg : String) : DBErr
  | AttributeError : DBErr
  deriving Repr, DecidableEq

/-- State of a `CovenantSQLResult` object (`connections.py` lines 245-258). -/
structure CovenantSQLResult where
  affected_rows : Option Nat
  insert_id : Option Nat
  warning_count : Nat
  message : Option String
  field_count : Nat
  description : Option String
  rows : Option (List (List JValue))
  has_next : Option Bool
  deriving Repr, DecidableEq

/-- Constructor `CovenantSQLResult.__init__`: every field unset/zero. -/
def CovenantSQLResult.init : CovenantSQLResult :=
  { affected_rows := none, insert_id := none, warning_count := 0,
    message := none, field_count := 0, description := none,
    rows := none, has_next := none }

/-- State of a `Connection` object. Field `closed` is `_closed` (class default
`False`), `sock` the presence of `_sock`, `resp` the last transport
response `_resp`, `respJson` the last decoded envelope `_resp_json`
(`none` while the attribute is still unset), `result` the stored
`CovenantSQLResult` `_result`, `affectedRows` the `_affected_rows`
counter (Python mixes `0` and `None` here, hence `Option Nat`). -/
structure Conn where
  host : String
  port : Nat
  database : Option String
  query_uri : String
  exec_uri : String
  connect_timeout : Int
  read_timeout : Option Int
  write_timeout : Option Int
  closed : Bool
  sock : Bool
  resp : Option Resp
  respJson : Option Envelope
  server_status : Option Bool
  result : Option CovenantSQLResult
  affectedRows : Option Nat
  deriving Repr, DecidableEq

/-- Python ASCII whitespace bytes, as stripped by `bytes.lstrip()`:
`b' \t\n\r\x0b\x0c'`. -/
def isSpaceByte (b : Nat) : Bool :=
  decide (b = 32 ∨ b = 9 ∨ b = 10 ∨ b = 11 ∨ b = 12 ∨ b = 13)

/-- Python `bytes.lower()` on one byte: ASCII uppercase maps down, all else fixed. -/
def lowerByte (b : Nat) : Nat :=
  if 65 ≤ b ∧ b ≤ 90 then b + 32 else b

/-- Python `bytes.lower()`. -/
def bytesLower (s : Bytes) : Bytes := s.map lowerByte

/-- Python `bytes.lstrip()` with no argument: drop leading ASCII whitespace. -/
def bytesLstrip (s : Bytes) : Bytes := s.dropWhile isSpaceByte

/-- The byte string `b'select'`. -/
def selectBytes : Bytes := [115, 101, 108, 101, 99, 116]

/-- Python `a.startswith(p)` on byte strings. -/
def startsWithBytes (s p : Bytes) : Bool := p.isPrefixOf s

/-- The dispatch predicate exactly as the code computes it
(line 214): `sql.lower().lstrip().startswith(b'select')`. -/
def isSelectCmd (sql : Bytes) : Bool :=
  startsWithBytes (bytesLstrip (bytesLower sql)) selectBytes

/-- Modelled from the spec's wording of the dispatch step: "Trim leading
whitespace from the command bytes, compare case-insensitively against
the literal prefix select" — strip first, then lowercase and compare.
Kept separate from `isSelectCmd` (the code's order of operations) so the
two can be proved equal. -/
def specSelect (sql : Bytes) : Bool :=
  startsWithBytes (bytesLower (bytesLstrip sql)) selectBytes

/-- The request `_execute_command` posts for `sql` on connection `c`:
uri chosen by the select dispatch, body fields `database` and `query`. -/
def mkRequest (c : Conn) (sql : Bytes) : Request :=
  { uri := if isSelectCmd sql then c.query_uri else c.exec_uri,
    database := c.database, query := sql }

/-- Method `Connection._execute_command` (lines 196-224).  Returns the
post-state, the list of transport requests made, and the raised
exception if any.  The closed check comes first; then the previous
`_resp` is dropped; then the POST is attempted (an exception from it
becomes `InterfaceError "Request proxy err: ..."`, with `_resp` still
`None`); then the body is JSON-decoded into `_resp_json` (failure
becomes `InterfaceError "Proxy return invalid data"` carrying the
response's reason, with `_resp` already holding the new response and
`_resp_json` keeping its old value). -/
def execCommand (c : Conn) (sql : Bytes) (t : Transport) :
    Conn × List Request × Option DBErr :=
  if c.closed then
    (c, [], some (.InterfaceError "Connection closed" none))
  else
    -- drop last command return (`if self._resp is not None: self._resp = None`)
    let c1 : Conn := { c with resp := none }
    let req := mkRequest c1 sql
    match t req with
    | .error e =>
        (c1, [req], some (.InterfaceError ("Request proxy err: " ++ e) none))
    | .ok r =>
        let c2 : Conn := { c1 with resp := some r }
        match r.body with
        | none =>
            (c2, [req], some (.InterfaceError "Proxy return invalid data" (some r.reason)))
        | some env =>
            ({ c2 with respJson := some env }, [req], none)

/-- Method `Connection._read_ok_packet` (lines 235-243).  Reads
`_resp_json["success"]` into `server_status`; raises
`OperationalError("Syntax error", status)` when it is false; otherwise
raises `OperationalError("Proxy return false", reason)` when the
transport response is not ok; otherwise returns the (true) status.
Accessing a still-unset `_resp_json`/`_resp` is an `AttributeError`. -/
def readOkPacket (c : Conn) : Conn × Except DBErr Bool :=
  match c.respJson with
  | none => (c, .error .AttributeError)
  | some env =>
    let c1 : Conn := { c with server_status := some env.success }
    if env.success = false then
      (c1, .error (.OperationalError "Syntax error" env.status))
    else
      match c1.resp with
      | none => (c1, .error .AttributeError)
      | some r =>
        if r.ok = false then
          (c1, .error (.OperationalError "Proxy return false" r.reason))
        else
          (c1, .ok env.success)

/-- Method `CovenantSQLResult.read` (lines 260-276).  Reads the envelope's
`data` member (failure to obtain it is
`InterfaceError "Unsupported response format"`).  A `null` data is an
exec result: return with all fields still unset.  Otherwise set
`affected_rows` to the number of entries of `data["rows"]` and copy each
row's columns, in order, into a tuple, collecting the tuples in source
order into `rows`. -/
def CovenantSQLResult.read (r : CovenantSQLResult) (c : Conn) :
    CovenantSQLResult × Option DBErr :=
  match c.respJson with
  | none => (r, some (.InterfaceError "Unsupported response format" none))
  | some env =>
    match env.data with
    | none => (r, none)  -- exec result
    | some rws =>
      let r1 : CovenantSQLResult := { r with affected_rows := some rws.length }
      let outRows := rws.map (fun line => line.map (fun column => column))
      ({ r1 with rows := some outRows }, none)

/-- Method `Connection._read_query_result` (lines 227-233).  Clears `_result`,
validates the envelope, reads a fresh `CovenantSQLResult`, stores it and
returns its `affected_rows`.  On a raise the partial state (with
`_result` already cleared) is kept. -/
def readQueryResult (c : Conn) : Conn × Except DBErr (Option Nat) :=
  let c0 : Conn := { c with result := none }
  match readOkPacket c0 with
  | (c1, .error e) => (c1, .error e)
  | (c1, .ok _) =>
    match CovenantSQLResult.init.read c1 with
    | (_, some e) => (c1, .error e)
    | (r1, none) => ({ c1 with result := some r1 }, .ok r1.affected_rows)

/-- Method `Connection.query` (lines 184-194), after the text has been encoded
to bytes: execute the command, read the query result, store and return
the affected-row count. -/
def Conn.query (c : Conn) (sql : Bytes) (t : Transport) :
    Conn × List Request × Except DBErr (Option Nat) :=
  match execCommand c sql t with
  | (c1, reqs, some e) => (c1, reqs, .error e)
  | (c1, reqs, none) =>
    match readQueryResult c1 with
    | (c2, .error e) => (c2, reqs, .error e)
    | (c2, .ok n) => ({ c2 with affectedRows := n }, reqs, .ok n)

/-- The utf-8 bytes of `"COMMIT"`. -/
def commitBytes : Bytes := [67, 79, 77, 77, 73, 84]

/-- The utf-8 bytes of `"ROLLBACK"`. -/
def rollbackBytes : Bytes := [82, 79, 76, 76, 66, 65, 67, 75]

/-- The utf-8 bytes of `"select 1;"`. -/
def select1Bytes : Bytes := [115, 101, 108, 101, 99, 116, 32, 49, 59]

/-- Method `Connection.commit` (lines 150-158): execute `COMMIT`, then read
the ok packet. -/
def Conn.commit (c : Conn) (t : Transport) :
    Conn × List Request × Option DBErr :=
  match execCommand c commitBytes t with
  | (c1, reqs, some e) => (c1, reqs, some e)
  | (c1, reqs, none) =>
    match readOkPacket c1 with
    | (c2, .error e) => (c2, reqs, some e)
    | (c2, .ok _) => (c2, reqs, none)

/-- Method `Connection.rollback` (lines 160-168): execute `ROLLBACK`, then
read the ok packet. -/
def Conn.rollback (c : Conn) (t : Transport) :
    Conn × List Request × Option DBErr :=
  match execCommand c rollbackBytes t with
  | (c1, reqs, some e) => (c1, reqs, some e)
  | (c1, reqs, none) =>
    match readOkPacket c1 with
    | (c2, .error e) => (c2, reqs, some e)
    | (c2, .ok _) => (c2, reqs, none)

/-- Method `Connection.close` (lines 136-148): raise `Error("Already closed")`
on an already-closed connection; otherwise release the socket handle and
set the closed flag. -/
def Conn.close (c : Conn) : Conn × Option DBErr :=
  if c.closed then
    (c, some (.Error "Already closed"))
  else
    ({ c with sock := false, closed := true }, none)

/-- Method `Connection.connect` (lines 130-134): unconditionally clear the
closed flag and acquire the socket handle, then run the probe command
`"select 1;"` through the full dispatch/validate path. -/
def Conn.connect (c : Conn) (t : Transport) :
    Conn × List Request × Option DBErr :=
  let c0 : Conn := { c with closed := false, sock := true }
  match execCommand c0 select1Bytes t with
  | (c1, reqs, some e) => (c1, reqs, some e)
  | (c1, reqs, none) =>
    match readOkPacket c1 with
    | (c2, .error e) => (c2, reqs, some e)
    | (c2, .ok _) => (c2, reqs, none)

/-- Constructor arguments of `Connection.__init__` relevant to the
claims (the config-file parameters are left at their `None` defaults, so
the config-reading block, lines 59-83, is skipped). -/
structure InitArgs where
  host : Option String
  port : Nat
  database : Option String
  connect_timeout : Int
  read_timeout : Option Int
  write_timeout : Option Int
  defer_connect : Bool
  deriving Repr, DecidableEq

/-- Python `x or default` on an optional string (both `None` and the
empty string are falsy). -/
def pyOrStr (v : Option String) (d : String) : String :=
  match v with
  | none => d
  | some s => if s = "" then d else s

/-- Python `x or default` on an integer (`0` is falsy). -/
def pyOrNat (v d : Nat) : Nat := if v = 0 then d else v

/-- How `__init__` surfaces the outcome of its immediate `connect()`
call: a raise propagates out of construction, otherwise the constructed
connection is returned. -/
def initConnectOutcome (out : Conn × List Request × Option DBErr) :
    Except DBErr Conn × List Request :=
  match out with
  | (_, reqs, some e) => (.error e, reqs)
  | (c1, reqs, none) => (.ok c1, reqs)

/-- Constructor `Connection.__init__` (lines 45-128) without the config-file block:
apply the host/port defaults, build the two endpoint uris, validate the
timeouts (`ValueError` on violation, raised before any transport
contact), initialize the runtime state, and — unless `defer_connect` —
run `connect` immediately.  Returns the constructed connection or the
raised exception, together with the transport requests made. -/
def connectionInit (a : InitArgs) (t : Transport) :
    Except DBErr Conn × List Request :=
  let host := pyOrStr a.host "localhost"
  let port := pyOrNat a.port 11108
  let quri := "https://" ++ host ++ ":" ++ toString port ++ "/v1/query"
  let euri := "https://" ++ host ++ ":" ++ toString port ++ "/v1/exec"
  if ¬ (0 < a.connect_timeout ∧ a.connect_timeout ≤ 31536000) then
    (.error (.ValueError "connect_timeout should be >0 and <=31536000"), [])
  else if (match a.read_timeout with | some rt => decide (rt ≤ 0) | none => false) then
    (.error (.ValueError "read_timeout should be >= 0"), [])
  else if (match a.write_timeout with | some wt => decide (wt ≤ 0) | none => false) then
    (.error (.ValueError "write_timeout should be >= 0"), [])
  else
    let c : Conn :=
      { host := host, port := port, database := a.database,
        query_uri := quri, exec_uri := euri,
        connect_timeout := a.connect_timeout,
        read_timeout := a.read_timeout, write_timeout := a.write_timeout,
        closed := false, sock := false,
        resp := none, respJson := none, server_status := none,
        result := none, affectedRows := some 0 }
    if a.defer_connect then
      (.ok c, [])
    else
      initConnectOutcome (c.connect t)

/-! ## Concrete objects used by witnesses -/

/-- Constructor arguments for a small concrete connection. -/
def initArgsW : InitArgs :=
  { host := none, port := 0, database := some "db0",
    connect_timeout := 10, read_timeout := none, write_timeout := none,
    defer_connect := false }

/-- A transport that always raises (never reached by deferred construction). -/
def transportW0 : Transport := fun _ => .error "unreachable"

/-- The envelope `{"success": true, "data": null}`. -/
def envNullW : Envelope := { success := true, status := "", data := none }

/-- A transport-level ok response carrying `envNullW`. -/
def respNullW : Resp := { ok := true, reason := "OK", body := some envNullW }

/-- A transport answering every request with an ok, successful, data-less
envelope. -/
def transportW : Transport := fun _ => .ok respNullW

/-- The connection `connectionInit { initArgsW with defer_connect := true }`
constructs. -/
def connW : Conn :=
  { host := "localhost", port := 11108, database := some "db0",
    query_uri := "https://localhost:11108/v1/query",
    exec_uri := "https://localhost:11108/v1/exec",
    connect_timeout := 10, read_timeout := none, write_timeout := none,
    closed := false, sock := false, resp := none, respJson := none,
    server_status := none, result := none, affectedRows := some 0 }


/-- The envelope `{"success": false, "status": "syntax error"}`. -/
def envSyntaxErr : Envelope :=
  { success := false, status := "syntax error", data := none }

/-- A transport-level ok response whose body is not decodable JSON. -/
def respOkW : Resp := { ok := true, reason := "OK", body := none }

/-- The concrete rows `[[1, "a"], [2, "b"]]`. -/
def rowsW : List (List JValue) :=
  [[JValue.jint 1, JValue.jstr "a"], [JValue.jint 2, JValue.jstr "b"]]

/-- The envelope `{"success": true, "data": {"rows": [[1, "a"], [2, "b"]]}}`. -/
def envRowsW : Envelope := { success := true, status := "", data := some rowsW }

/-- The connection `connW` after decoding the syntax-error envelope. -/
def connSyntaxErrW : Conn :=
  { connW with respJson := some envSyntaxErr, resp := some respOkW }

/-- The connection `connW` after decoding the rows envelope. -/
def connRowsW : Conn :=
  { connW with respJson := some envRowsW, resp := some respOkW }

/-- The connection `connW` after a successful close. -/
def connClosedW : Conn := { connW with closed := true, sock := false }

/-- A previously materialized one-row result. -/
def prevResultW : CovenantSQLResult :=
  { CovenantSQLResult.init with affected_rows := some 1, rows := some [[JValue.jint 7]] }

/-- An open connection still holding a previous result and envelope. -/
def connWithResultW : Conn :=
  { connW with result := some prevResultW, resp := some respOkW, respJson := some envRowsW }

/-- A transport whose responses decode to a failure envelope
(`success = false`). -/
def transportFailEnvW : Transport := fun _ =>
  .ok { ok := true, reason := "OK", body := some envSyntaxErr }

/-- Whether an exception is the invalid-argument (`ValueError`) kind. -/
def DBErr.isValueError : DBErr → Bool
  | .ValueError _ => true
  | _ => false

/-- Whether a construction outcome is an invalid-argument failure. -/
def isInvalidArg (x : Except DBErr Conn) : Bool :=
  match x with
  | .error e => e.isValueError
  | .ok _ => false

/-- Constructor arguments with an out-of-range connect timeout. -/
def initArgsBadW : InitArgs := { initArgsW with connect_timeout := 0 }

/-! ## Helper lemmas -/

/-- Lowercasing a byte fixes its whitespace-ness. -/
theorem isSpaceByte_lowerByte (b : Nat) :
    isSpaceByte (lowerByte b) = isSpaceByte b := by
  unfold lowerByte isSpaceByte
  split
  · rw [decide_eq_decide]
    omega
  · rfl

/-- Lowercasing commutes with stripping leading whitespace, so the
code's order of operations (`lower` then `lstrip`) agrees with the
spec's (`lstrip` then case-insensitive compare). -/
theorem bytesLstrip_bytesLower (s : Bytes) :
    bytesLstrip (bytesLower s) = bytesLower (bytesLstrip s) := by
  induction s with
  | nil => rfl
  | cons b bs ih =>
    unfold bytesLower bytesLstrip at *
    simp only [List.map_cons, List.dropWhile_cons, isSpaceByte_lowerByte]
    cases h : isSpaceByte b
    · simp
    · simpa using ih

/-- The code's dispatch predicate equals the spec's. -/
theorem isSelectCmd_eq_specSelect (sql : Bytes) :
    isSelectCmd sql = specSelect sql := by
  unfold isSelectCmd specSelect
  rw [bytesLstrip_bytesLower]

/-- On a non-closed connection, `_execute_command` posts exactly one
request, the one `mkRequest` describes, whatever the transport does. -/
theorem execCommand_reqs (c : Conn) (sql : Bytes) (t : Transport)
    (h : c.closed = false) :
    (execCommand c sql t).2.1 = [mkRequest c sql] := by
  unfold execCommand
  simp only [h, Bool.false_eq_true, if_false, mkRequest]
  cases ht : t { uri := if isSelectCmd sql = true then c.query_uri else c.exec_uri,
                 database := c.database, query := sql } with
  | error e => simp [ht]
  | ok r => cases hb : r.body <;> simp [ht, hb]

/-- A deferred construction succeeds with a connection whose flag is
clear and whose endpoint uris are built from the defaulted host/port. -/
theorem connectionInit_defer_ok (a : InitArgs) (t0 : Transport) (c : Conn)
    (h : (connectionInit { a with defer_connect := true } t0).1 = .ok c) :
    c.closed = false ∧ c.database = a.database ∧
    c.query_uri = "https://" ++ pyOrStr a.host "localhost" ++ ":" ++
      toString (pyOrNat a.port 11108) ++ "/v1/query" ∧
    c.exec_uri = "https://" ++ pyOrStr a.host "localhost" ++ ":" ++
      toString (pyOrNat a.port 11108) ++ "/v1/exec" := by
  unfold connectionInit at h
  split at h
  · simp at h
  · split at h
    · simp at h
    · split at h
      · simp at h
      · simp only [if_pos] at h
        injection h with h
        subst h
        exact ⟨rfl, rfl, rfl, rfl⟩

/-! ## Claims -/

/-- C1: for every SQL command, the dispatch step strips leading
whitespace from the command bytes and compares case-insensitively
against the prefixed literal select: on a match the POST (with fields
database and query) goes to `https://{host}:{port}/v1/query`, otherwise
to `https://{host}:{port}/v1/exec`. -/
theorem C1_dispatch_routing (a : InitArgs) (t0 t : Transport) (c : Conn) (sql : Bytes)
    (h : (connectionInit { a with defer_connect := true } t0).1 = .ok c) :
    (execCommand c sql t).2.1 =
      [{ uri := if specSelect sql then
            "https://" ++ pyOrStr a.host "localhost" ++ ":" ++
              toString (pyOrNat a.port 11108) ++ "/v1/query"
          else
            "https://" ++ pyOrStr a.host "localhost" ++ ":" ++
              toString (pyOrNat a.port 11108) ++ "/v1/exec",
         database := a.database, query := sql }] := by
  obtain ⟨hc, hdb, hq, he⟩ := connectionInit_defer_ok a t0 c h
  rw [execCommand_reqs c sql t hc]
  unfold mkRequest
  rw [isSelectCmd_eq_specSelect, hdb, hq, he]

/-- C1 witness: the command `b"  SELECT 1"` on the concrete connection
is posted to the query endpoint with its database and query fields. -/
theorem C1_dispatch_routing_witness :
    (execCommand connW [32, 32, 83, 69, 76, 69, 67, 84, 32, 49] transportW).2.1 =
      [{ uri := "https://localhost:11108/v1/query",
         database := some "db0",
         query := [32, 32, 83, 69, 76, 69, 67, 84, 32, 49] }] := by
  have h := C1_dispatch_routing initArgsW transportW0 transportW connW
      [32, 32, 83, 69, 76, 69, 67, 84, 32, 49] rfl
  rw [h]
  rfl

/-- C2: validation fails with an operational error carrying the
envelope's status whenever `success` is false; independently it fails
with an operational error carrying the transport's reason whenever the
transport status is not ok even though `success` is true; it succeeds
only when both checks hold. -/
theorem C2_read_ok_packet (c : Conn) (env : Envelope) (r : Resp)
    (hj : c.respJson = some env) (hr : c.resp = some r) :
    (env.success = false →
      (readOkPacket c).2 = .error (.OperationalError "Syntax error" env.status)) ∧
    (env.success = true → r.ok = false →
      (readOkPacket c).2 = .error (.OperationalError "Proxy return false" r.reason)) ∧
    (env.success = true → r.ok = true →
      (readOkPacket c).2 = .ok true) := by
  unfold readOkPacket
  rw [hj]
  refine ⟨fun hs => ?_, fun hs hok => ?_, fun hs hok => ?_⟩
  · simp [hs]
  · simp [hs, hr, hok]
  · simp [hs, hr, hok]

/-- C2 witness: the envelope `{"success": false, "status": "syntax error"}`
makes validation fail with an operational error whose detail is the
status text. -/
theorem C2_read_ok_packet_witness :
    (readOkPacket connSyntaxErrW).2 =
      .error (.OperationalError "Syntax error" "syntax error") :=
  (C2_read_ok_packet connSyntaxErrW envSyntaxErr respOkW rfl rfl).1 rfl

/-- C3: whenever the envelope's data member contains a rows array, the
result's read yields one tuple per source row, columns and rows in
source order, and sets the row count to the number of rows. -/
theorem C3_result_read_rows (r : CovenantSQLResult) (c : Conn) (env : Envelope)
    (rws : List (List JValue))
    (hj : c.respJson = some env) (hd : env.data = some rws) :
    (r.read c).1.rows = some rws ∧
    (r.read c).1.affected_rows = some rws.length ∧
    (r.read c).2 = none := by
  simp only [CovenantSQLResult.read, hj, hd]
  simp

/-- C3 witness: for the envelope
`{"success": true, "data": {"rows": [[1, "a"], [2, "b"]]}}` the row
count is 2 and the rows come out as `((1, "a"), (2, "b"))` in order. -/
theorem C3_result_read_rows_witness :
    (CovenantSQLResult.init.read connRowsW).1.rows = some rowsW ∧
    (CovenantSQLResult.init.read connRowsW).1.affected_rows = some 2 := by
  have h := C3_result_read_rows CovenantSQLResult.init connRowsW envRowsW rowsW rfl rfl
  exact ⟨h.1, h.2.1⟩

/-- Lemma: `_execute_command` never changes the closed flag. -/
theorem execCommand_closed (c : Conn) (sql : Bytes) (t : Transport) :
    (execCommand c sql t).1.closed = c.closed := by
  unfold execCommand
  cases hc : c.closed
  · simp only [hc, Bool.false_eq_true, if_false, mkRequest]
    cases ht : t { uri := if isSelectCmd sql = true then c.query_uri else c.exec_uri,
                   database := c.database, query := sql } with
    | error e => simp [ht]
    | ok r => cases hb : r.body <;> simp [ht, hb]
  · simp [hc]

/-- Lemma: `_read_ok_packet` never changes the closed flag. -/
theorem readOkPacket_closed (c : Conn) :
    (readOkPacket c).1.closed = c.closed := by
  unfold readOkPacket
  cases hj : c.respJson with
  | none => rfl
  | some env =>
    cases hs : env.success
    · simp [hs]
    · cases hr : c.resp with
      | none => simp [hs, hr]
      | some r => cases hok : r.ok <;> simp [hs, hr, hok]

/-- Lemma: `connect` always leaves the closed flag clear, whatever the probe
command does. -/
theorem connect_closed (c : Conn) (t : Transport) :
    (Conn.connect c t).1.closed = false := by
  unfold Conn.connect
  rcases he : execCommand { c with closed := false, sock := true } select1Bytes t
    with ⟨c1, reqs, err⟩
  have h1 : c1.closed = false := by
    have hx := execCommand_closed { c with closed := false, sock := true } select1Bytes t
    rw [he] at hx
    simpa using hx
  cases err with
  | some e => simp [he, h1]
  | none =>
    rcases hro : readOkPacket c1 with ⟨c2, res⟩
    have h2 : c2.closed = false := by
      have hx := readOkPacket_closed c1
      rw [hro] at hx
      rw [hx, h1]
    cases res with
    | error e => simp [he, hro, h2]
    | ok b => simp [he, hro, h2]

/-- On a closed connection `_execute_command` raises at the closed-flag
check: state unchanged, no transport request. -/
theorem execCommand_of_closed (c : Conn) (sql : Bytes) (t : Transport)
    (h : c.closed = true) :
    execCommand c sql t = (c, [], some (.InterfaceError "Connection closed" none)) := by
  unfold execCommand
  simp [h]

/-- On a closed connection `query` fails immediately: state unchanged,
no transport request, `InterfaceError`. -/
theorem query_of_closed (c : Conn) (sql : Bytes) (t : Transport)
    (h : c.closed = true) :
    Conn.query c sql t = (c, [], .error (.InterfaceError "Connection closed" none)) := by
  unfold Conn.query
  rw [execCommand_of_closed c sql t h]

/-- On a closed connection `commit` fails immediately. -/
theorem commit_of_closed (c : Conn) (t : Transport) (h : c.closed = true) :
    Conn.commit c t = (c, [], some (.InterfaceError "Connection closed" none)) := by
  unfold Conn.commit
  rw [execCommand_of_closed c commitBytes t h]

/-- On a closed connection `rollback` fails immediately. -/
theorem rollback_of_closed (c : Conn) (t : Transport) (h : c.closed = true) :
    Conn.rollback c t = (c, [], some (.InterfaceError "Connection closed" none)) := by
  unfold Conn.rollback
  rw [execCommand_of_closed c rollbackBytes t h]

/-- C5 counterexample: the CLOSED state is not terminal — on a closed
connection, `connect` (the open operation) clears the closed flag. -/
theorem C5_closed_not_terminal_counterexample :
    connClosedW.closed = true ∧
    (Conn.connect connClosedW transportW).1.closed = false :=
  ⟨rfl, rfl⟩

/-- C5 (amended): once `close()` has set the closed flag, `close`,
`query`, `commit` and `rollback` all leave the flag set; but a
subsequent `open()` (`connect`) clears the flag as its first step, so
`open()` does transition the connection out of CLOSED. -/
theorem C5_closed_terminal_amended (c : Conn) (sql : Bytes) (t : Transport)
    (h : c.closed = true) :
    (Conn.close c).1.closed = true ∧
    (Conn.query c sql t).1.closed = true ∧
    (Conn.commit c t).1.closed = true ∧
    (Conn.rollback c t).1.closed = true ∧
    (Conn.connect c t).1.closed = false := by
  refine ⟨?_, ?_, ?_, ?_, connect_closed c t⟩
  · unfold Conn.close
    simp [h]
  · rw [query_of_closed c sql t h]
    exact h
  · rw [commit_of_closed c t h]
    exact h
  · rw [rollback_of_closed c t h]
    exact h

/-- C5 witness: the amended statement at a concrete closed connection. -/
theorem C5_closed_terminal_amended_witness :
    (Conn.close connClosedW).1.closed = true ∧
    (Conn.query connClosedW select1Bytes transportW).1.closed = true ∧
    (Conn.commit connClosedW transportW).1.closed = true ∧
    (Conn.rollback connClosedW transportW).1.closed = true ∧
    (Conn.connect connClosedW transportW).1.closed = false :=
  C5_closed_terminal_amended connClosedW select1Bytes transportW rfl

/-- C6: after close, every `query`/`commit`/`rollback` call fails with a
protocol-interface error raised on the closed-flag check, before any
transport contact (no request is made) and with the state unchanged. -/
theorem C6_closed_commands_fail (c : Conn) (sql : Bytes) (t : Transport)
    (h : c.closed = true) :
    Conn.query c sql t = (c, [], .error (.InterfaceError "Connection closed" none)) ∧
    Conn.commit c t = (c, [], some (.InterfaceError "Connection closed" none)) ∧
    Conn.rollback c t = (c, [], some (.InterfaceError "Connection closed" none)) :=
  ⟨query_of_closed c sql t h, commit_of_closed c t h, rollback_of_closed c t h⟩

/-- C6 witness: the statement at a concrete closed connection. -/
theorem C6_closed_commands_fail_witness :
    Conn.query connClosedW select1Bytes transportW =
      (connClosedW, [], .error (.InterfaceError "Connection closed" none)) ∧
    Conn.commit connClosedW transportW =
      (connClosedW, [], some (.InterfaceError "Connection closed" none)) ∧
    Conn.rollback connClosedW transportW =
      (connClosedW, [], some (.InterfaceError "Connection closed" none)) :=
  C6_closed_commands_fail connClosedW select1Bytes transportW rfl

/-- C7: `close` on a not-closed connection releases the transport handle
and sets the closed flag; on an already-closed connection it fails with
a state error (`Error "Already closed"`) — close is not idempotent. -/
theorem C7_close_spec (c : Conn) :
    (c.closed = false →
      Conn.close c = ({ c with sock := false, closed := true }, none)) ∧
    (c.closed = true →
      Conn.close c = (c, some (.Error "Already closed"))) := by
  constructor <;> intro h <;> unfold Conn.close <;> simp [h]

/-- C7 witness: both branches at concrete connections. -/
theorem C7_close_spec_witness :
    Conn.close connW = ({ connW with sock := false, closed := true }, none) ∧
    Conn.close connClosedW = (connClosedW, some (.Error "Already closed")) :=
  ⟨(C7_close_spec connW).1 rfl, (C7_close_spec connClosedW).2 rfl⟩

/-- When the POST raises, `_execute_command` keeps `_resp` at `None`
(the previous envelope was already dropped) and raises the wrapping
`InterfaceError`; nothing else changes. -/
theorem execCommand_post_err (c : Conn) (sql : Bytes) (t : Transport) (s : String)
    (h : c.closed = false) (ht : t (mkRequest c sql) = .error s) :
    execCommand c sql t =
      ({ c with resp := none }, [mkRequest c sql],
        some (.InterfaceError ("Request proxy err: " ++ s) none)) := by
  unfold execCommand
  simp only [mkRequest] at ht ⊢
  simp only [h, Bool.false_eq_true, if_false, ht]

/-- When the POST succeeds but the body is not decodable JSON,
`_execute_command` stores the new response, keeps the old `_resp_json`,
and raises the decode `InterfaceError`. -/
theorem execCommand_body_none (c : Conn) (sql : Bytes) (t : Transport) (r : Resp)
    (h : c.closed = false) (ht : t (mkRequest c sql) = .ok r) (hb : r.body = none) :
    execCommand c sql t =
      ({ c with resp := some r }, [mkRequest c sql],
        some (.InterfaceError "Proxy return invalid data" (some r.reason))) := by
  unfold execCommand
  simp only [mkRequest] at ht ⊢
  simp only [h, Bool.false_eq_true, if_false, ht, hb]

/-- When the POST succeeds and decodes, `_execute_command` stores the
response and the envelope and returns normally. -/
theorem execCommand_ok_env (c : Conn) (sql : Bytes) (t : Transport) (r : Resp)
    (env : Envelope)
    (h : c.closed = false) (ht : t (mkRequest c sql) = .ok r) (hb : r.body = some env) :
    execCommand c sql t =
      ({ c with resp := some r, respJson := some env }, [mkRequest c sql], none) := by
  unfold execCommand
  simp only [mkRequest] at ht ⊢
  simp only [h, Bool.false_eq_true, if_false, ht, hb]

/-- Lemma: `_read_ok_packet` never changes the stored result. -/
theorem readOkPacket_result (c : Conn) :
    (readOkPacket c).1.result = c.result := by
  unfold readOkPacket
  cases hj : c.respJson with
  | none => rfl
  | some env =>
    cases hs : env.success
    · simp [hs]
    · cases hr : c.resp with
      | none => simp [hs, hr]
      | some r => cases hok : r.ok <;> simp [hs, hr, hok]

/-- If `_read_query_result` raises, the stored result has already been
cleared to `None`: the prior result is destroyed, not kept. -/
theorem readQueryResult_fail_result (c : Conn) (e : DBErr)
    (h : (readQueryResult c).2 = .error e) :
    (readQueryResult c).1.result = none := by
  rcases hro : readOkPacket { c with result := none } with ⟨c1, res⟩
  have hres : c1.result = none := by
    have hx := readOkPacket_result { c with result := none }
    rw [hro] at hx
    simpa using hx
  cases res with
  | error e1 =>
    have hq : readQueryResult c = (c1, .error e1) := by
      simp only [readQueryResult, hro]
    rw [hq]
    exact hres
  | ok b =>
    rcases hrd : CovenantSQLResult.init.read c1 with ⟨r1, err2⟩
    cases err2 with
    | some e2 =>
      have hq : readQueryResult c = (c1, .error e2) := by
        simp only [readQueryResult, hro, hrd]
      rw [hq]
      exact hres
    | none =>
      have hq : readQueryResult c =
          ({ c1 with result := some r1 }, .ok r1.affected_rows) := by
        simp only [readQueryResult, hro, hrd]
      rw [hq] at h
      exact absurd h (by simp)

/-- Lemma: `query` makes exactly the transport requests `_execute_command`
makes. -/
theorem query_reqs (c : Conn) (sql : Bytes) (t : Transport) :
    (Conn.query c sql t).2.1 = (execCommand c sql t).2.1 := by
  unfold Conn.query
  rcases he : execCommand c sql t with ⟨c1, reqs, err⟩
  cases err with
  | some e => simp [he]
  | none =>
    rcases hrq : readQueryResult c1 with ⟨c2, res⟩
    cases res <;> simp [he, hrq]

/-- Lemma: `commit` makes exactly the transport requests `_execute_command`
makes. -/
theorem commit_reqs (c : Conn) (t : Transport) :
    (Conn.commit c t).2.1 = (execCommand c commitBytes t).2.1 := by
  unfold Conn.commit
  rcases he : execCommand c commitBytes t with ⟨c1, reqs, err⟩
  cases err with
  | some e => simp [he]
  | none =>
    rcases hro : readOkPacket c1 with ⟨c2, res⟩
    cases res <;> simp [he, hro]

/-- Lemma: `rollback` makes exactly the transport requests `_execute_command`
makes. -/
theorem rollback_reqs (c : Conn) (t : Transport) :
    (Conn.rollback c t).2.1 = (execCommand c rollbackBytes t).2.1 := by
  unfold Conn.rollback
  rcases he : execCommand c rollbackBytes t with ⟨c1, reqs, err⟩
  cases err with
  | some e => simp [he]
  | none =>
    rcases hro : readOkPacket c1 with ⟨c2, res⟩
    cases res <;> simp [he, hro]

/-- Every exception `_execute_command` raises is an `InterfaceError`,
never a `ValueError`. -/
theorem execCommand_err_kind (c : Conn) (sql : Bytes) (t : Transport) (e : DBErr)
    (h : (execCommand c sql t).2.2 = some e) : e.isValueError = false := by
  by_cases hc : c.closed = true
  · rw [execCommand_of_closed c sql t hc] at h
    simp at h
    subst h
    rfl
  · have hcf : c.closed = false := by simpa using hc
    cases ht : t (mkRequest c sql) with
    | error s =>
      rw [execCommand_post_err c sql t s hcf ht] at h
      simp at h
      subst h
      rfl
    | ok r =>
      cases hb : r.body with
      | none =>
        rw [execCommand_body_none c sql t r hcf ht hb] at h
        simp at h
        subst h
        rfl
      | some env =>
        rw [execCommand_ok_env c sql t r env hcf ht hb] at h
        simp at h

/-- Every exception `_read_ok_packet` raises is an `OperationalError`
or an `AttributeError`, never a `ValueError`. -/
theorem readOkPacket_err_kind (c : Conn) (e : DBErr)
    (h : (readOkPacket c).2 = .error e) : e.isValueError = false := by
  unfold readOkPacket at h
  cases hj : c.respJson with
  | none =>
    rw [hj] at h
    simp at h
    subst h
    rfl
  | some env =>
    rw [hj] at h
    by_cases hs : env.success = false
    · simp [hs] at h
      subst h
      rfl
    · have hs' : env.success = true := by simpa using hs
      cases hr : c.resp with
      | none =>
        simp [hs', hr] at h
        subst h
        rfl
      | some r =>
        cases hok : r.ok
        · simp [hs', hr, hok] at h
          subst h
          rfl
        · simp [hs', hr, hok] at h

/-- Every exception `connect` raises is an `InterfaceError`, an
`OperationalError` or an `AttributeError`, never a `ValueError`. -/
theorem connect_err_kind (c : Conn) (t : Transport) (e : DBErr)
    (h : (Conn.connect c t).2.2 = some e) : e.isValueError = false := by
  simp only [Conn.connect] at h
  rcases he : execCommand { c with closed := false, sock := true } select1Bytes t
    with ⟨c1, reqs, err⟩
  rw [he] at h
  cases err with
  | some e1 =>
    simp at h
    subst h
    exact execCommand_err_kind _ select1Bytes t e1 (by rw [he])
  | none =>
    rcases hro : readOkPacket c1 with ⟨c2, res⟩
    cases res with
    | error e1 =>
      simp [hro] at h
      subst h
      exact readOkPacket_err_kind c1 e1 (by rw [hro])
    | ok b => simp [hro] at h

/-- C4 counterexample: a query that fails during validation does NOT
leave the prior stored result untouched — the old result (one row,
present before the command) has been destroyed (cleared to `None`),
because `_read_query_result` clears `_result` before validating. -/
theorem C4_prior_result_untouched_counterexample :
    connWithResultW.result = some prevResultW ∧
    (Conn.query connWithResultW select1Bytes transportFailEnvW).2.2 =
      .error (.OperationalError "Syntax error" "syntax error") ∧
    (Conn.query connWithResultW select1Bytes transportFailEnvW).1.result = none :=
  ⟨rfl, rfl, rfl⟩

/-- C4 (amended): a command that fails during dispatch — the closed
check, a raising POST, or an undecodable response body — leaves the
prior stored result untouched (and after a raising POST the previous
response envelope has already been dropped: `_resp` is `None`); a query
that fails after dispatch, during validation or materialization, leaves
the stored result cleared to `None`, because it is cleared before
validation.  So a failed command never resurrects the old result nor
stores a new one. -/
theorem C4_query_fail_frame (c : Conn) (sql : Bytes) (t : Transport) (e : DBErr)
    (h : (Conn.query c sql t).2.2 = .error e) :
    (c.closed = true → (Conn.query c sql t).1.result = c.result) ∧
    (c.closed = false → ∀ s, t (mkRequest c sql) = .error s →
      (Conn.query c sql t).1.resp = none ∧
      (Conn.query c sql t).1.result = c.result) ∧
    (c.closed = false → ∀ r, t (mkRequest c sql) = .ok r → r.body = none →
      (Conn.query c sql t).1.result = c.result) ∧
    (c.closed = false → ∀ r env, t (mkRequest c sql) = .ok r → r.body = some env →
      (Conn.query c sql t).1.result = none) := by
  refine ⟨fun hc => ?_, fun hcf s ht => ?_, fun hcf r ht hb => ?_,
    fun hcf r env ht hb => ?_⟩
  · rw [query_of_closed c sql t hc]
  · have hq : Conn.query c sql t =
        ({ c with resp := none }, [mkRequest c sql],
          .error (.InterfaceError ("Request proxy err: " ++ s) none)) := by
      unfold Conn.query
      simp only [execCommand_post_err c sql t s hcf ht]
    rw [hq]
    exact ⟨rfl, rfl⟩
  · have hq : Conn.query c sql t =
        ({ c with resp := some r }, [mkRequest c sql],
          .error (.InterfaceError "Proxy return invalid data" (some r.reason))) := by
      unfold Conn.query
      simp only [execCommand_body_none c sql t r hcf ht hb]
    rw [hq]
  · rcases hrq : readQueryResult { c with resp := some r, respJson := some env }
      with ⟨c3, res⟩
    cases res with
    | ok n =>
      have hq : Conn.query c sql t =
          ({ c3 with affectedRows := n }, [mkRequest c sql], .ok n) := by
        unfold Conn.query
        simp only [execCommand_ok_env c sql t r env hcf ht hb, hrq]
      rw [hq] at h
      exact absurd h (by simp)
    | error e1 =>
      have hq : Conn.query c sql t = (c3, [mkRequest c sql], .error e1) := by
        unfold Conn.query
        simp only [execCommand_ok_env c sql t r env hcf ht hb, hrq]
      rw [hq]
      have hx := readQueryResult_fail_result
        { c with resp := some r, respJson := some env } e1 (by rw [hrq])
      rw [hrq] at hx
      exact hx

/-- C4 witness: the concrete failing query fails during validation, so
its case of the amended frame property applies: the stored result is
cleared to `None`. -/
theorem C4_query_fail_frame_witness :
    (Conn.query connWithResultW select1Bytes transportFailEnvW).1.result = none :=
  (C4_query_fail_frame connWithResultW select1Bytes transportFailEnvW
    (.OperationalError "Syntax error" "syntax error") rfl).2.2.2 rfl
    { ok := true, reason := "OK", body := some envSyntaxErr } envSyntaxErr rfl rfl

/-- C8: when the validated envelope's data member is null (an exec-style
command), the materializer leaves the row sequence and row count unset
(the result is the untouched fresh result object) and `query` still
returns normally with that (unset) count. -/
theorem C8_null_data_query (c : Conn) (sql : Bytes) (t : Transport) (r : Resp)
    (env : Envelope)
    (hcl : c.closed = false) (ht : t (mkRequest c sql) = .ok r)
    (hb : r.body = some env) (hok : r.ok = true)
    (hs : env.success = true) (hd : env.data = none) :
    (Conn.query c sql t).2.2 = .ok none ∧
    (Conn.query c sql t).1.result = some CovenantSQLResult.init ∧
    CovenantSQLResult.init.rows = none ∧
    CovenantSQLResult.init.affected_rows = none := by
  have hrq : readQueryResult { c with resp := some r, respJson := some env } =
      ({ c with
         resp := some r, respJson := some env,
         server_status := some true, result := some CovenantSQLResult.init },
        .ok none) := by
    simp only [readQueryResult, readOkPacket, CovenantSQLResult.read]
    simp [hs, hok, hd, CovenantSQLResult.init]
  have hq : Conn.query c sql t =
      ({ c with
         resp := some r, respJson := some env, server_status := some true,
         result := some CovenantSQLResult.init, affectedRows := none },
        [mkRequest c sql], .ok none) := by
    unfold Conn.query
    simp only [execCommand_ok_env c sql t r env hcl ht hb, hrq]
  rw [hq]
  exact ⟨rfl, rfl, rfl, rfl⟩

/-- C8 witness: the concrete data-less round trip. -/
theorem C8_null_data_query_witness :
    (Conn.query connW select1Bytes transportW).2.2 = .ok none ∧
    (Conn.query connW select1Bytes transportW).1.result =
      some CovenantSQLResult.init :=
  have h := C8_null_data_query connW select1Bytes transportW respNullW envNullW
    rfl rfl rfl rfl rfl rfl
  ⟨h.1, h.2.1⟩

/-- The non-deferred tail of construction never produces an
invalid-argument failure: `connect` raises only interface, operational
or attribute errors. -/
theorem initConnectOutcome_not_invalid (c : Conn) (t : Transport) :
    isInvalidArg (initConnectOutcome (Conn.connect c t)).1 = false := by
  rcases hcn : Conn.connect c t with ⟨c1, reqs, err⟩
  cases err with
  | some e =>
    have hk := connect_err_kind c t e (by rw [hcn])
    simp [initConnectOutcome, isInvalidArg, hk]
  | none => simp [initConnectOutcome, isInvalidArg]

/-- C9: construction fails with an invalid-argument error, before any
transport contact (no request made), whenever the connect timeout lies
outside [1, 31536000] or a given read/write timeout is non-positive;
with all three inside their ranges, construction never raises the
invalid-argument error. -/
theorem C9_init_timeout_validation (a : InitArgs) (t : Transport) :
    (((a.connect_timeout < 1 ∨ 31536000 < a.connect_timeout) ∨
      (∃ rt, a.read_timeout = some rt ∧ rt ≤ 0) ∨
      (∃ wt, a.write_timeout = some wt ∧ wt ≤ 0)) →
      isInvalidArg (connectionInit a t).1 = true ∧ (connectionInit a t).2 = []) ∧
    ((1 ≤ a.connect_timeout ∧ a.connect_timeout ≤ 31536000) →
      (∀ rt, a.read_timeout = some rt → 0 < rt) →
      (∀ wt, a.write_timeout = some wt → 0 < wt) →
      isInvalidArg (connectionInit a t).1 = false) := by
  constructor
  · rintro (hct | ⟨rt, hrt, hrt0⟩ | ⟨wt, hwt, hwt0⟩)
    · have hcond : ¬ (0 < a.connect_timeout ∧ a.connect_timeout ≤ 31536000) := by
        omega
      unfold connectionInit
      rw [if_pos hcond]
      exact ⟨rfl, rfl⟩
    · by_cases h1 : (0 < a.connect_timeout ∧ a.connect_timeout ≤ 31536000)
      · have h2 : (match a.read_timeout with
            | some rt => decide (rt ≤ 0) | none => false) = true := by
          rw [hrt]
          simpa using hrt0
        unfold connectionInit
        rw [if_neg (not_not_intro h1), if_pos h2]
        exact ⟨rfl, rfl⟩
      · unfold connectionInit
        rw [if_pos h1]
        exact ⟨rfl, rfl⟩
    · by_cases h1 : (0 < a.connect_timeout ∧ a.connect_timeout ≤ 31536000)
      · by_cases h2 : (match a.read_timeout with
            | some rt => decide (rt ≤ 0) | none => false) = true
        · unfold connectionInit
          rw [if_neg (not_not_intro h1), if_pos h2]
          exact ⟨rfl, rfl⟩
        · have h3 : (match a.write_timeout with
              | some wt => decide (wt ≤ 0) | none => false) = true := by
            rw [hwt]
            simpa using hwt0
          unfold connectionInit
          rw [if_neg (not_not_intro h1), if_neg h2, if_pos h3]
          exact ⟨rfl, rfl⟩
      · unfold connectionInit
        rw [if_pos h1]
        exact ⟨rfl, rfl⟩
  · rintro ⟨hl, hu⟩ hrt hwt
    have h1 : (0 < a.connect_timeout ∧ a.connect_timeout ≤ 31536000) := by omega
    have h2 : ¬ ((match a.read_timeout with
        | some rt => decide (rt ≤ 0) | none => false) = true) := by
      cases hx : a.read_timeout with
      | none => simp
      | some rt =>
        have := hrt rt hx
        simp
        omega
    have h3 : ¬ ((match a.write_timeout with
        | some wt => decide (wt ≤ 0) | none => false) = true) := by
      cases hx : a.write_timeout with
      | none => simp
      | some wt =>
        have := hwt wt hx
        simp
        omega
    unfold connectionInit
    rw [if_neg (not_not_intro h1), if_neg h2, if_neg h3]
    by_cases hd : a.defer_connect = true
    · rw [if_pos hd]
      rfl
    · rw [if_neg hd]
      exact initConnectOutcome_not_invalid _ t

/-- C9 witness: a zero connect timeout is rejected before any transport
contact, and the valid default arguments are not rejected. -/
theorem C9_init_timeout_validation_witness :
    isInvalidArg (connectionInit initArgsBadW transportW0).1 = true ∧
    (connectionInit initArgsBadW transportW0).2 = [] ∧
    isInvalidArg (connectionInit initArgsW transportW).1 = false :=
  ⟨((C9_init_timeout_validation initArgsBadW transportW0).1 (Or.inl (by decide))).1,
   ((C9_init_timeout_validation initArgsBadW transportW0).1 (Or.inl (by decide))).2,
   (C9_init_timeout_validation initArgsW transportW).2 (by decide)
     (fun rt hx => by simp [initArgsW] at hx)
     (fun wt hx => by simp [initArgsW] at hx)⟩

/-- C10: a connection constructed with defer true (and open never
called) has the closed flag already false — the class-level default —
so `query`, `commit` and `rollback` pass the closed check and dispatch
their request to the transport instead of failing with a
closed-connection error. -/
theorem C10_defer_construct_dispatches (a : InitArgs) (t0 t : Transport) (c : Conn)
    (sql : Bytes)
    (h : (connectionInit { a with defer_connect := true } t0).1 = .ok c) :
    c.closed = false ∧
    (Conn.query c sql t).2.1 = [mkRequest c sql] ∧
    (Conn.commit c t).2.1 = [mkRequest c commitBytes] ∧
    (Conn.rollback c t).2.1 = [mkRequest c rollbackBytes] := by
  obtain ⟨hc, -, -, -⟩ := connectionInit_defer_ok a t0 c h
  refine ⟨hc, ?_, ?_, ?_⟩
  · rw [query_reqs, execCommand_reqs c sql t hc]
  · rw [commit_reqs, execCommand_reqs c commitBytes t hc]
  · rw [rollback_reqs, execCommand_reqs c rollbackBytes t hc]

/-- C10 witness: the deferred concrete connection dispatches all three
commands. -/
theorem C10_defer_construct_dispatches_witness :
    connW.closed = false ∧
    (Conn.query connW select1Bytes transportW).2.1 =
      [mkRequest connW select1Bytes] ∧
    (Conn.commit connW transportW).2.1 = [mkRequest connW commitBytes] ∧
    (Conn.rollback connW transportW).2.1 = [mkRequest connW rollbackBytes] :=
  C10_defer_construct_dispatches initArgsW transportW0 transportW connW
    select1Bytes rfl
